import Mathlib

/-!
# Verification of the angular-janus videoroom core

Shallow embedding of `janus-videoroom.component.ts` (session-state subscriber,
attach retry, mute reconciliation, publisher-list derivation) and
`video-box.component.ts` (substream quality monitor), together with the parts
of the data model they use.  Pieces of the repository that are only referenced
from these files (the `JanusErrors` table and the `VideoQualityHelper` class)
are modelled from the specification and marked as such in their doc comments.
-/

namespace AngularJanus

/-- Room session state (`RoomInfoState` in `models/janus.models`), as listed in
the spec: {uninitialized, initialized, attaching, attached, attach_failed,
registered, publishing, error}. -/
inductive RoomInfoState
  | uninitialized
  | initialized
  | attaching
  | attached
  | attach_failed
  | registered
  | publishing
  | error
deriving DecidableEq, Repr

/-- Publish state (`PublishState` in `models/janus.models`): {idle, publishing, error}. -/
inductive PublishState
  | idle
  | publishing
  | error
deriving DecidableEq, Repr

/-- Remote-feed state (`RemoteFeedState` in `models/janus.models`):
{pending, ready, closed}. -/
inductive RemoteFeedState
  | pending
  | ready
  | closed
deriving DecidableEq, Repr

/-- One remote participant's media (`RemoteFeed`). -/
structure RemoteFeed where
  id : String
  state : RemoteFeedState
  streamId : Nat
  numVideoTracks : Nat
  currentSubstream : Nat
  requestedSubstream : Nat
deriving DecidableEq, Repr

/-- Per-session aggregate (`RoomInfo`).  `errorCode` is meaningful only when
`publishState = error`. -/
structure RoomInfo where
  state : RoomInfoState
  publishState : PublishState
  muted : Bool
  errorCode : Int
deriving DecidableEq, Repr

/-- The component-side mutable state of `JanusVideoroomComponent` that the
state subscriber reads and writes: the desired mute flag `this.muted`, the
configured URLs, the currently targeted server URL `this.janusServerUrl`,
registration parameters, plus bookkeeping for the scheduled `setTimeout`
attach retries (`pendingRetries`) and whether `destroy$` has fired
(`destroyed`). -/
structure CompState where
  muted : Bool
  wsUrl : String
  httpUrl : String
  janusServerUrl : String
  pin : Option String
  userName : String
  userId : Option String
  roomId : String
  pendingRetries : Nat
  destroyed : Bool
deriving DecidableEq, Repr

/-- Observable effects of one run of the state subscriber or of a timer
callback: calls into `janusStore` (`setMute`, `attachVideoRoom`, `register`),
events emitted to the embedding application (`janusErrorEmit` for
`janusError.emit`, `publishersEmit` for `publishers.emit`), a scheduled
`setTimeout` retry, and `thrown` for an uncaught TypeError raised inside the
subscriber body. -/
inductive Action
  | setMute (muted : Bool)
  | janusErrorEmit (code : Int) (message : String)
  | publishersEmit (feeds : List RemoteFeed)
  | attachVideoRoom (url : String)
  | register (name : String) (userId : Option String) (roomId : String) (pin : Option String)
  | scheduleRetry (delayMs : Nat)
  | thrown
deriving DecidableEq, Repr

/-- `emitRemoteFeeds` of `JanusVideoroomComponent`: derives the publisher list
as the remote feeds whose `state === RemoteFeedState.ready` (the value handed
to `this.publishers.emit`). -/
def emitRemoteFeeds (remoteFeeds : List RemoteFeed) : List RemoteFeed :=
  remoteFeeds.filter (fun feed => feed.state == RemoteFeedState.ready)

/-- Modelled from the spec: the fixed error-code-to-message table `JanusErrors`
lives in `models/janus.models`, which is not under `src/`.  Per the spec it is
"an enumerable mapping from small integer codes to human-readable strings,
plus a reserved sentinel code (e.g. 9999) for 'unable to connect to media
server'".  `JanusErrors[code]` in TypeScript evaluates to `undefined` for any
code outside the table, which we model with `none`; the subscriber then
dereferences `.message` on it.  Any finite table has unmapped codes, so the
precise mapped entries are immaterial to the claims; we include the sentinel
and one representative small code. -/
def janusErrorsModel : Int → Option String := fun code =>
  if code = 9999 then some "Unable to connect to media server"
  else if code = 426 then some "No such room"
  else none

/-- The `switch (roomInfo.state)` block at the end of the `state$` subscriber
in `setupJanusRoom`: `initialized` calls `attachVideoRoom(janusServerUrl)`;
`attached` calls `register(...)`; `attach_failed` either rewrites
`janusServerUrl` to `httpUrl` and schedules a 100 ms `setTimeout` retry (when
the URL just tried differs from `httpUrl`) or emits the fatal
`{code: 9999, message: 'Unable to connect to media server'}` event; every
other state falls through with no action. -/
def stateSwitch (s : CompState) (ri : RoomInfo) : List Action × CompState :=
  match ri.state with
  | RoomInfoState.initialized => ([Action.attachVideoRoom s.janusServerUrl], s)
  | RoomInfoState.attached =>
      ([Action.register s.userName s.userId s.roomId s.pin], s)
  | RoomInfoState.attach_failed =>
      if s.janusServerUrl ≠ s.httpUrl then
        ([Action.scheduleRetry 100],
         { s with janusServerUrl := s.httpUrl, pendingRetries := s.pendingRetries + 1 })
      else
        ([Action.janusErrorEmit 9999 "Unable to connect to media server"], s)
  | _ => ([], s)

/-- One run of the anonymous subscriber body installed on `janusStore.state$`
by `setupJanusRoom`, for a single emitted `(roomInfo, remoteFeeds)` pair, in
source order: (1) mute reconciliation — `setMute(this.muted)` iff
`roomInfo.muted !== this.muted && roomInfo.publishState === publishing`;
(2) if `publishState === error`, look up `JanusErrors[errorCode].message`
(an unmapped code makes the member access throw, aborting the rest of the
body) and emit `janusError`; (3) `emitRemoteFeeds`; (4) the
`switch (roomInfo.state)` block.  The table is a parameter so that theorems
hold for every possible `JanusErrors` content. -/
def onStateEmission (tbl : Int → Option String) (s : CompState) (ri : RoomInfo)
    (remoteFeeds : List RemoteFeed) : List Action × CompState :=
  let muteActs : List Action :=
    if ri.muted ≠ s.muted ∧ ri.publishState = PublishState.publishing then
      [Action.setMute s.muted]
    else []
  if ri.publishState = PublishState.error then
    match tbl ri.errorCode with
    | none => (muteActs ++ [Action.thrown], s)
    | some msg =>
        let r := stateSwitch s ri
        (muteActs ++ [Action.janusErrorEmit ri.errorCode msg]
          ++ [Action.publishersEmit (emitRemoteFeeds remoteFeeds)] ++ r.1, r.2)
  else
    let r := stateSwitch s ri
    (muteActs ++ [Action.publishersEmit (emitRemoteFeeds remoteFeeds)] ++ r.1, r.2)

/-- Folding `onStateEmission` over a finite sequence of emissions of
`janusStore.state$`, collecting all actions in order. -/
def processEmissions (tbl : Int → Option String) (s : CompState)
    (ems : List (RoomInfo × List RemoteFeed)) : List Action × CompState :=
  match ems with
  | [] => ([], s)
  | e :: rest =>
      let r := onStateEmission tbl s e.1 e.2
      let r2 := processEmissions tbl r.2 rest
      (r.1 ++ r2.1, r2.2)

/-- Firing one pending `setTimeout` callback scheduled by the `attach_failed`
branch: the callback body is
`() => { this.janusStore.attachVideoRoom(this.janusServerUrl); }` — it reads
`this.janusServerUrl` at fire time and calls `attachVideoRoom`
unconditionally; nothing in the component keeps the timer handle or checks
`destroy$`, so the callback runs the same way after teardown. -/
def fireRetryTimer (s : CompState) : Action × CompState :=
  (Action.attachVideoRoom s.janusServerUrl,
   { s with pendingRetries := s.pendingRetries - 1 })

/-- `ngOnDestroy` of `JanusVideoroomComponent`: fires and completes
`destroy$`, which (via `takeUntil`) unsubscribes the `state$` subscription.
No `clearTimeout` is issued anywhere, so scheduled retries stay pending. -/
def ngOnDestroy (s : CompState) : CompState :=
  { s with destroyed := true }

/-- Modelled from the spec: the `VideoQualityHelper` class is constructed in
`video-box.component.ts` (`new VideoQualityHelper(3)`) but its file
`video-quality-helper.ts` is not under `src/`.  Per the spec it carries, per
feed, "an internal rolling counter of consecutive 'healthy' evaluation ticks
at the current layer, and an independent error counter"; the candidate
substream "increases only after a configurable number of consecutive healthy
pings at the current layer have accumulated", capped "at the highest
available layer" (constructor argument, default cap 3 layers: 0..2).
`maxStreams` is the layer cap, `pingsNeeded` the consecutive-healthy-ping
threshold; `goodPings`/`errorCounts` map a layer index to its counters. -/
structure VideoQualityHelper where
  maxStreams : Nat
  pingsNeeded : Nat
  goodPings : Nat → Nat
  errorCounts : Nat → Nat

/-- Modelled from the spec: `streamError(substream)` records "a stream error
at `currentSubstream`" — it bumps the layer's error counter and, because the
healthy counter is a counter of *consecutive* healthy ticks, resets the
layer's healthy-ping run. -/
def VideoQualityHelper.streamError (h : VideoQualityHelper) (substream : Nat) :
    VideoQualityHelper :=
  { h with
    errorCounts := fun t => if t = substream then h.errorCounts substream + 1 else h.errorCounts t,
    goodPings := fun t => if t = substream then 0 else h.goodPings t }

/-- Modelled from the spec: `streamEnd(substream)` "closes out scoring for the
old layer" when a switch away from it is proposed — the layer's healthy-ping
run starts over. -/
def VideoQualityHelper.streamEnd (h : VideoQualityHelper) (substream : Nat) :
    VideoQualityHelper :=
  { h with goodPings := fun t => if t = substream then 0 else h.goodPings t }

/-- Modelled from the spec: `ping(substream)` records a healthy ping at the
layer and returns the candidate substream index, which exceeds the current
layer only once `pingsNeeded` consecutive healthy pings have accumulated
there, and never exceeds the cap (`maxStreams` layers: `0 .. maxStreams-1`). -/
def VideoQualityHelper.ping (h : VideoQualityHelper) (substream : Nat) :
    Nat × VideoQualityHelper :=
  let good := h.goodPings substream + 1
  let h2 : VideoQualityHelper :=
    { h with goodPings := fun t => if t = substream then good else h.goodPings t }
  if h.pingsNeeded ≤ good ∧ substream + 1 < h.maxStreams then
    (substream + 1, h2)
  else
    (substream, h2)

/-- `switchSubstream` of `VideoBoxComponent`: emits the
`requestSubstream` event `{feed, substreamId}` only when
`remoteFeed.requestedSubstream !== substreamId`. -/
def switchSubstream (feed : RemoteFeed) (substreamId : Nat) :
    Option (RemoteFeed × Nat) :=
  if feed.requestedSubstream ≠ substreamId then some (feed, substreamId) else none

/-- Result of one `monitorVideoQuality` tick: the updated helper, the
substream the tick proposed to switch to (argument of the `switchSubstream`
call, if any), and the `requestSubstream` event actually emitted (if any). -/
structure MonitorResult where
  helper : VideoQualityHelper
  proposed : Option Nat
  emitted : Option (RemoteFeed × Nat)

/-- `monitorVideoQuality(slowLink)` of `VideoBoxComponent`: with no
`remoteFeed` the tick does nothing; if `remoteFeed.numVideoTracks === 0 ||
slowLink` it records `streamError(currentSubstream)` and, when
`currentSubstream > 0`, calls `switchSubstream(currentSubstream - 1)`;
otherwise it records a healthy `ping(currentSubstream)` and, when the
returned candidate is strictly greater, closes the old layer with
`streamEnd` and calls `switchSubstream(newSubstream)`. -/
def monitorVideoQuality (remoteFeed : Option RemoteFeed)
    (h : VideoQualityHelper) (slowLink : Bool) : MonitorResult :=
  match remoteFeed with
  | none => ⟨h, none, none⟩
  | some feed =>
      let currentSubstream := feed.currentSubstream
      if feed.numVideoTracks = 0 ∨ slowLink = true then
        let h2 := h.streamError currentSubstream
        if currentSubstream > 0 then
          ⟨h2, some (currentSubstream - 1), switchSubstream feed (currentSubstream - 1)⟩
        else
          ⟨h2, none, none⟩
      else
        let pr := h.ping currentSubstream
        if pr.1 > currentSubstream then
          ⟨pr.2.streamEnd currentSubstream, some pr.1, switchSubstream feed pr.1⟩
        else
          ⟨pr.2, none, none⟩

/-- Runs a sequence of periodic evaluation ticks on one feed: each `true`
entry is a healthy tick, each `false` entry an unhealthy one (the feed
reporting zero active video tracks).  Returns the final helper together with
the per-tick proposals, in order. -/
def runMonitorTicks (feed : RemoteFeed) (h : VideoQualityHelper)
    (ticks : List Bool) : VideoQualityHelper × List (Option Nat) :=
  match ticks with
  | [] => (h, [])
  | healthy :: rest =>
      let f := if healthy then feed else { feed with numVideoTracks := 0 }
      let r := monitorVideoQuality (some f) h false
      let r2 := runMonitorTicks feed r.helper rest
      (r2.1, r.proposed :: r2.2)

/-! ## Concrete fixtures for witnesses and counterexamples -/

/-- A component state right after `ngOnInit` with both URLs configured:
`janusServerUrl` starts at `wsUrl` (the primary), `httpUrl` is the fallback. -/
def cs0 : CompState :=
  { muted := false
    wsUrl := "ws://primary"
    httpUrl := "http://fallback"
    janusServerUrl := "ws://primary"
    pin := none
    userName := "janus user"
    userId := none
    roomId := "1234"
    pendingRetries := 0
    destroyed := false }

/-- An emission in state `initialized` (triggers `attachVideoRoom`). -/
def riInit : RoomInfo :=
  { state := RoomInfoState.initialized, publishState := PublishState.idle
    muted := false, errorCode := 0 }

/-- An emission in state `attach_failed`. -/
def riAF : RoomInfo :=
  { state := RoomInfoState.attach_failed, publishState := PublishState.idle
    muted := false, errorCode := 0 }

/-- An emission with `publishState = error` and the mapped sentinel code. -/
def riErr : RoomInfo :=
  { state := RoomInfoState.registered, publishState := PublishState.error
    muted := false, errorCode := 9999 }

/-- An emission with `publishState = error` and a code outside the table. -/
def riUnmapped : RoomInfo :=
  { state := RoomInfoState.registered, publishState := PublishState.error
    muted := false, errorCode := 12345 }

/-- A ready remote feed sitting at the lowest substream. -/
def feed0 : RemoteFeed :=
  { id := "feed1", state := RemoteFeedState.ready, streamId := 7
    numVideoTracks := 1, currentSubstream := 0, requestedSubstream := 0 }

/-- A ready remote feed at substream 2 (as in the spec's downgrade example). -/
def feed2 : RemoteFeed :=
  { id := "feed2", state := RemoteFeedState.ready, streamId := 8
    numVideoTracks := 0, currentSubstream := 2, requestedSubstream := 2 }

/-- A fresh quality helper as constructed by `new VideoQualityHelper(3)`,
with the spec's example upgrade threshold N = 3. -/
def helper0 : VideoQualityHelper :=
  { maxStreams := 3, pingsNeeded := 3, goodPings := fun _ => 0, errorCounts := fun _ => 0 }

/-- A component state holding one pending retry timer, with `janusServerUrl`
already rewritten to the fallback — exactly the state left behind by the
`attach_failed` retry branch. -/
def cs1 : CompState :=
  { cs0 with janusServerUrl := "http://fallback", pendingRetries := 1 }

/-- An emission while publishing, with the store-side mute flag set (so that
it disagrees with the desired `this.muted = false` of `cs0`). -/
def riPub : RoomInfo :=
  { state := RoomInfoState.publishing, publishState := PublishState.publishing
    muted := true, errorCode := 0 }

/-! ## Helper lemmas -/

/-- The `switch` block leaves the component state untouched in every state
other than `attach_failed`. -/
theorem stateSwitch_comp_eq (s : CompState) (ri : RoomInfo)
    (h : ri.state ≠ RoomInfoState.attach_failed) :
    (stateSwitch s ri).2 = s := by
  unfold stateSwitch
  cases hs : ri.state <;> simp_all

/-- Outside `attach_failed` the `switch` block never emits a `janusError`
event. -/
theorem stateSwitch_no_error_emit (s : CompState) (ri : RoomInfo) (c : Int) (m : String)
    (h : ri.state ≠ RoomInfoState.attach_failed) :
    Action.janusErrorEmit c m ∉ (stateSwitch s ri).1 := by
  unfold stateSwitch
  cases hs : ri.state <;> simp_all

/-- The `switch` block never issues a `setMute` call. -/
theorem setMute_not_mem_stateSwitch (s : CompState) (ri : RoomInfo) (b : Bool) :
    Action.setMute b ∉ (stateSwitch s ri).1 := by
  unfold stateSwitch
  cases hs : ri.state <;> simp_all
  split <;> simp

/-- Shape of one subscriber run when `publishState ≠ error`: mute
reconciliation, the publisher-list emission, then the `switch` block. -/
theorem onStateEmission_eq_of_ne_error (tbl : Int → Option String) (s : CompState)
    (ri : RoomInfo) (feeds : List RemoteFeed)
    (hpub : ri.publishState ≠ PublishState.error) :
    onStateEmission tbl s ri feeds =
      ((if ri.muted ≠ s.muted ∧ ri.publishState = PublishState.publishing
        then [Action.setMute s.muted] else [])
        ++ [Action.publishersEmit (emitRemoteFeeds feeds)] ++ (stateSwitch s ri).1,
       (stateSwitch s ri).2) := by
  simp [onStateEmission, hpub]

/-- Shape of one subscriber run when `publishState = error` and the error
code is in the table: the `janusError` event is emitted between the mute
reconciliation and the publisher-list emission. -/
theorem onStateEmission_eq_of_error_mapped (tbl : Int → Option String) (s : CompState)
    (ri : RoomInfo) (feeds : List RemoteFeed) (msg : String)
    (herr : ri.publishState = PublishState.error) (hmap : tbl ri.errorCode = some msg) :
    onStateEmission tbl s ri feeds =
      ((if ri.muted ≠ s.muted ∧ ri.publishState = PublishState.publishing
        then [Action.setMute s.muted] else [])
        ++ [Action.janusErrorEmit ri.errorCode msg]
        ++ [Action.publishersEmit (emitRemoteFeeds feeds)] ++ (stateSwitch s ri).1,
       (stateSwitch s ri).2) := by
  simp [onStateEmission, herr, hmap]

/-- The `attach_failed` branch when the URL just tried differs from the
fallback: reschedule against `httpUrl` with one new pending timer. -/
theorem stateSwitch_attach_failed_retry (s : CompState) (ri : RoomInfo)
    (hstate : ri.state = RoomInfoState.attach_failed)
    (hne : s.janusServerUrl ≠ s.httpUrl) :
    stateSwitch s ri = ([Action.scheduleRetry 100],
      { s with janusServerUrl := s.httpUrl, pendingRetries := s.pendingRetries + 1 }) := by
  simp [stateSwitch, hstate, hne]

/-- The `attach_failed` branch when the fallback was the URL just tried:
emit the sentinel fatal error and change nothing. -/
theorem stateSwitch_attach_failed_exhausted (s : CompState) (ri : RoomInfo)
    (hstate : ri.state = RoomInfoState.attach_failed)
    (heq : s.janusServerUrl = s.httpUrl) :
    stateSwitch s ri
      = ([Action.janusErrorEmit 9999 "Unable to connect to media server"], s) := by
  simp [stateSwitch, hstate, heq]

/-- The `initialized` branch calls `attachVideoRoom(janusServerUrl)` and
changes nothing. -/
theorem stateSwitch_initialized (s : CompState) (ri : RoomInfo)
    (hstate : ri.state = RoomInfoState.initialized) :
    stateSwitch s ri = ([Action.attachVideoRoom s.janusServerUrl], s) := by
  simp [stateSwitch, hstate]

/-- The mute-reconciliation prefix of a subscriber run contributes no
occurrence of any action other than `setMute`. -/
theorem count_mute_ite (c : Prop) [Decidable c] (b : Bool) (a : Action)
    (h : ∀ b', a ≠ Action.setMute b') :
    (if c then [Action.setMute b] else []).count a = 0 := by
  split <;> simp [List.count_cons, List.count_nil, h]

/-! ## Claim theorems -/

/-- Claim C1: on an `attach_failed` emission, if the URL just tried differs
from the fallback (`httpUrl`), exactly one 100 ms retry is scheduled, no
fatal error is emitted, `janusServerUrl` is rewritten to the fallback so the
pending timer will attach to the fallback URL, and a further `attach_failed`
emission schedules no second retry but emits the sentinel error; if the URL
just tried was already the fallback (including primary = fallback), no retry
is scheduled and the single fatal error `{9999, 'Unable to connect to media
server'}` is emitted. -/
theorem attach_failed_retry_policy (tbl : Int → Option String) (s : CompState)
    (ri : RoomInfo) (feeds : List RemoteFeed)
    (hstate : ri.state = RoomInfoState.attach_failed)
    (hpub : ri.publishState ≠ PublishState.error) :
    (s.janusServerUrl ≠ s.httpUrl →
      ((onStateEmission tbl s ri feeds).1.count (Action.scheduleRetry 100) = 1
       ∧ (∀ c m, Action.janusErrorEmit c m ∉ (onStateEmission tbl s ri feeds).1)
       ∧ (onStateEmission tbl s ri feeds).2
           = { s with janusServerUrl := s.httpUrl, pendingRetries := s.pendingRetries + 1 }
       ∧ (fireRetryTimer (onStateEmission tbl s ri feeds).2).1
           = Action.attachVideoRoom s.httpUrl
       ∧ (onStateEmission tbl (onStateEmission tbl s ri feeds).2 ri feeds).1.count
           (Action.scheduleRetry 100) = 0
       ∧ (onStateEmission tbl (onStateEmission tbl s ri feeds).2 ri feeds).1.count
           (Action.janusErrorEmit 9999 "Unable to connect to media server") = 1))
    ∧ (s.janusServerUrl = s.httpUrl →
      ((onStateEmission tbl s ri feeds).1.count (Action.scheduleRetry 100) = 0
       ∧ (onStateEmission tbl s ri feeds).1.count
           (Action.janusErrorEmit 9999 "Unable to connect to media server") = 1
       ∧ (onStateEmission tbl s ri feeds).2 = s)) := by
  have hbase := onStateEmission_eq_of_ne_error tbl s ri feeds hpub
  constructor
  · intro hne
    have hsw := stateSwitch_attach_failed_retry s ri hstate hne
    have hs2 : (onStateEmission tbl s ri feeds).2
        = { s with janusServerUrl := s.httpUrl, pendingRetries := s.pendingRetries + 1 } := by
      rw [hbase, hsw]
    have hbase2 := onStateEmission_eq_of_ne_error tbl
      { s with janusServerUrl := s.httpUrl, pendingRetries := s.pendingRetries + 1 }
      ri feeds hpub
    have hsw2 := stateSwitch_attach_failed_exhausted
      { s with janusServerUrl := s.httpUrl, pendingRetries := s.pendingRetries + 1 }
      ri hstate rfl
    refine ⟨?_, ?_, hs2, ?_, ?_, ?_⟩
    · rw [hbase, hsw]
      simp [List.count_append, List.count_cons, count_mute_ite]
    · intro c m
      rw [hbase, hsw]
      simp
    · rw [hs2]
      rfl
    · rw [hs2, hbase2, hsw2]
      simp [List.count_append, List.count_cons, count_mute_ite]
    · rw [hs2, hbase2, hsw2]
      simp [List.count_append, List.count_cons, count_mute_ite]
  · intro heq
    have hsw := stateSwitch_attach_failed_exhausted s ri hstate heq
    refine ⟨?_, ?_, ?_⟩
    · rw [hbase, hsw]
      simp [List.count_append, List.count_cons, count_mute_ite]
    · rw [hbase, hsw]
      simp [List.count_append, List.count_cons, count_mute_ite]
    · rw [hbase, hsw]

/-- Witness for C1: from the freshly initialized component state, a failure
on the primary URL schedules exactly one retry, and the follow-up failure on
the fallback emits exactly one sentinel error. -/
theorem attach_failed_retry_policy_witness :
    ((onStateEmission janusErrorsModel cs0 riAF []).1.count (Action.scheduleRetry 100) = 1)
    ∧ ((onStateEmission janusErrorsModel
          ((onStateEmission janusErrorsModel cs0 riAF []).2) riAF []).1.count
        (Action.janusErrorEmit 9999 "Unable to connect to media server") = 1) :=
  ⟨(((attach_failed_retry_policy janusErrorsModel cs0 riAF [] rfl (by decide)).1)
      (by decide)).1,
   (((attach_failed_retry_policy janusErrorsModel cs0 riAF [] rfl (by decide)).1)
      (by decide)).2.2.2.2.2⟩

/-- Claim C2 (amended): the `switch (roomInfo.state)` action fires on every
emission, not once per distinct state — for an `initialized` emission the
`attachVideoRoom` call occurs exactly once per run, the component state is
unchanged, so processing the same emission twice performs the call twice. -/
theorem state_action_per_emission (tbl : Int → Option String) (s : CompState)
    (ri : RoomInfo) (feeds : List RemoteFeed)
    (hstate : ri.state = RoomInfoState.initialized)
    (hpub : ri.publishState ≠ PublishState.error) :
    (onStateEmission tbl s ri feeds).1.count (Action.attachVideoRoom s.janusServerUrl) = 1
    ∧ (onStateEmission tbl s ri feeds).2 = s
    ∧ (processEmissions tbl s [(ri, feeds), (ri, feeds)]).1.count
        (Action.attachVideoRoom s.janusServerUrl) = 2 := by
  have hbase := onStateEmission_eq_of_ne_error tbl s ri feeds hpub
  have hsw := stateSwitch_initialized s ri hstate
  have h1 : (onStateEmission tbl s ri feeds).1.count
      (Action.attachVideoRoom s.janusServerUrl) = 1 := by
    rw [hbase, hsw]
    simp [List.count_append, List.count_cons, count_mute_ite]
  have h2 : (onStateEmission tbl s ri feeds).2 = s := by
    rw [hbase, hsw]
  refine ⟨h1, h2, ?_⟩
  have hpe : processEmissions tbl s [(ri, feeds), (ri, feeds)]
      = ((onStateEmission tbl s ri feeds).1 ++ (onStateEmission tbl s ri feeds).1,
         s) := by
    simp [processEmissions, h2]
  rw [hpe, List.count_append, h1]

/-- Witness for C2 (amended): two identical `initialized` emissions issue the
`attachVideoRoom` call twice. -/
theorem state_action_per_emission_witness :
    (processEmissions janusErrorsModel cs0 [(riInit, []), (riInit, [])]).1.count
      (Action.attachVideoRoom cs0.janusServerUrl) = 2 :=
  (state_action_per_emission janusErrorsModel cs0 riInit [] rfl (by decide)).2.2

/-- Counterexample to C2 as stated: repeating the unchanged `initialized`
emission re-triggers the attach action — over two identical emissions the
`attachVideoRoom("ws://primary")` call is performed twice, not once. -/
theorem state_action_repeat_cex :
    (processEmissions janusErrorsModel cs0 [(riInit, []), (riInit, [])]).1.count
      (Action.attachVideoRoom "ws://primary") = 2 := by decide

/-- Claim C3 (amended): the fatal `janusError` event fires on every emission
with `publishState = error` (whose code is in the table), not once per
transition into error — exactly one event per run, component state unchanged,
so processing the same error emission twice emits the event twice. -/
theorem error_event_per_emission (tbl : Int → Option String) (s : CompState)
    (ri : RoomInfo) (feeds : List RemoteFeed) (msg : String)
    (herr : ri.publishState = PublishState.error)
    (hmap : tbl ri.errorCode = some msg)
    (hstate : ri.state ≠ RoomInfoState.attach_failed) :
    (onStateEmission tbl s ri feeds).1.count (Action.janusErrorEmit ri.errorCode msg) = 1
    ∧ (onStateEmission tbl s ri feeds).2 = s
    ∧ (processEmissions tbl s [(ri, feeds), (ri, feeds)]).1.count
        (Action.janusErrorEmit ri.errorCode msg) = 2 := by
  have hbase := onStateEmission_eq_of_error_mapped tbl s ri feeds msg herr hmap
  have h1 : (onStateEmission tbl s ri feeds).1.count
      (Action.janusErrorEmit ri.errorCode msg) = 1 := by
    rw [hbase]
    rw [List.count_append, List.count_append, List.count_append]
    rw [List.count_eq_zero_of_not_mem
      (stateSwitch_no_error_emit s ri ri.errorCode msg hstate)]
    simp [List.count_cons, count_mute_ite]
  have h2 : (onStateEmission tbl s ri feeds).2 = s := by
    rw [hbase]
    exact stateSwitch_comp_eq s ri hstate
  refine ⟨h1, h2, ?_⟩
  have hpe : processEmissions tbl s [(ri, feeds), (ri, feeds)]
      = ((onStateEmission tbl s ri feeds).1 ++ (onStateEmission tbl s ri feeds).1,
         s) := by
    simp [processEmissions, h2]
  rw [hpe, List.count_append, h1]

/-- Witness for C3 (amended): two identical emissions carrying the mapped
sentinel error code emit the fatal event twice. -/
theorem error_event_per_emission_witness :
    (processEmissions janusErrorsModel cs0 [(riErr, []), (riErr, [])]).1.count
      (Action.janusErrorEmit riErr.errorCode "Unable to connect to media server") = 2 :=
  (error_event_per_emission janusErrorsModel cs0 riErr []
    "Unable to connect to media server" rfl rfl (by decide)).2.2

/-- Counterexample to C3 as stated: a repeated emission of an unchanged error
state re-emits the fatal event — two identical error emissions produce two
`janusError` events, not one per transition into error. -/
theorem error_event_repeat_cex :
    (processEmissions janusErrorsModel cs0 [(riErr, []), (riErr, [])]).1.count
      (Action.janusErrorEmit 9999 "Unable to connect to media server") = 2 := by decide

/-- Claim C4 (amended): for an error code outside the table, the member
access `JanusErrors[errorCode].message` throws, so the subscriber run aborts:
no `janusError` event and no publisher-list emission is produced — there is
no fallback generic message. -/
theorem unmapped_code_throws (tbl : Int → Option String) (s : CompState)
    (ri : RoomInfo) (feeds : List RemoteFeed)
    (herr : ri.publishState = PublishState.error)
    (hun : tbl ri.errorCode = none) :
    Action.thrown ∈ (onStateEmission tbl s ri feeds).1
    ∧ (∀ c m, Action.janusErrorEmit c m ∉ (onStateEmission tbl s ri feeds).1)
    ∧ (∀ fs, Action.publishersEmit fs ∉ (onStateEmission tbl s ri feeds).1) := by
  have hb : onStateEmission tbl s ri feeds
      = ((if ri.muted ≠ s.muted ∧ ri.publishState = PublishState.publishing
          then [Action.setMute s.muted] else []) ++ [Action.thrown], s) := by
    simp [onStateEmission, herr, hun]
  refine ⟨?_, fun c m => ?_, fun fs => ?_⟩ <;> rw [hb] <;> simp

/-- Witness for C4 (amended): the unmapped code 12345 makes the subscriber
throw. -/
theorem unmapped_code_throws_witness :
    Action.thrown ∈ (onStateEmission janusErrorsModel cs0 riUnmapped []).1 :=
  (unmapped_code_throws janusErrorsModel cs0 riUnmapped [] rfl rfl).1

/-- Counterexample to C4 as stated: on an error emission carrying the
unmapped code 12345 the subscriber run consists of the uncaught throw alone —
no error event with any (fallback) message is emitted. -/
theorem unmapped_code_throws_cex :
    (onStateEmission janusErrorsModel cs0 riUnmapped []).1 = [Action.thrown] := by decide

/-- Claim C5 (amended): no teardown path cancels the `setTimeout` retry —
`ngOnDestroy` only completes `destroy$`, leaving every pending retry timer in
place, and a pending timer fired after the destroy still calls
`attachVideoRoom(janusServerUrl)`. -/
theorem retry_timer_not_cancelled (s : CompState) (h : 0 < s.pendingRetries) :
    (ngOnDestroy s).destroyed = true
    ∧ (ngOnDestroy s).pendingRetries = s.pendingRetries
    ∧ (fireRetryTimer (ngOnDestroy s)).1 = Action.attachVideoRoom s.janusServerUrl :=
  ⟨rfl, rfl, rfl⟩

/-- Witness for C5 (amended): with one retry pending against the fallback,
destroying the component does not stop the timer from calling
`attachVideoRoom("http://fallback")`. -/
theorem retry_timer_not_cancelled_witness :
    0 < cs1.pendingRetries
    ∧ (fireRetryTimer (ngOnDestroy cs1)).1 = Action.attachVideoRoom "http://fallback" :=
  ⟨by decide, (retry_timer_not_cancelled cs1 (by decide)).2.2⟩

/-- Counterexample to C5 as stated: an `attach_failed` emission leaves one
pending retry timer; after `ngOnDestroy` that timer still fires and produces
an observable `attachVideoRoom` call against the fallback URL. -/
theorem retry_after_teardown_cex :
    ((onStateEmission janusErrorsModel cs0 riAF []).2).pendingRetries = 1
    ∧ (ngOnDestroy ((onStateEmission janusErrorsModel cs0 riAF []).2)).destroyed = true
    ∧ (fireRetryTimer (ngOnDestroy ((onStateEmission janusErrorsModel cs0 riAF []).2))).1
        = Action.attachVideoRoom "http://fallback" := by decide

/-- Claim C6: on an unhealthy tick (`numVideoTracks = 0` or slow-link), the
helper records a stream error at `currentSubstream` on that same tick, a
downgrade to `currentSubstream - 1` is proposed immediately when
`currentSubstream > 0`, and no switch is proposed when `currentSubstream = 0`. -/
theorem monitor_downgrade_immediate (feed : RemoteFeed) (h : VideoQualityHelper)
    (slowLink : Bool) (hBad : feed.numVideoTracks = 0 ∨ slowLink = true) :
    (monitorVideoQuality (some feed) h slowLink).helper.errorCounts feed.currentSubstream
        = h.errorCounts feed.currentSubstream + 1
    ∧ (0 < feed.currentSubstream →
        (monitorVideoQuality (some feed) h slowLink).proposed
          = some (feed.currentSubstream - 1))
    ∧ (feed.currentSubstream = 0 →
        (monitorVideoQuality (some feed) h slowLink).proposed = none) := by
  by_cases hcs : 0 < feed.currentSubstream
  · simp [monitorVideoQuality, hBad, hcs, VideoQualityHelper.streamError]
    omega
  · simp [monitorVideoQuality, hBad, hcs, VideoQualityHelper.streamError]

/-- Witness for C6: a feed at substream 2 reporting zero video tracks gets a
downgrade proposal to substream 1 and an error recorded at layer 2 on one
tick. -/
theorem monitor_downgrade_immediate_witness :
    (monitorVideoQuality (some feed2) helper0 false).proposed = some 1
    ∧ (monitorVideoQuality (some feed2) helper0 false).helper.errorCounts 2 = 1 :=
  ⟨(monitor_downgrade_immediate feed2 helper0 false (Or.inl rfl)).2.1 (by decide),
   (monitor_downgrade_immediate feed2 helper0 false (Or.inl rfl)).1⟩

/-- Claim C7: the scorer's candidate exceeds the current substream only once
`pingsNeeded` consecutive healthy pings have accumulated at that layer, a
healthy tick proposes a switch exactly when the candidate is strictly greater
than `currentSubstream`, two healthy ticks followed by an unhealthy one never
propose an upgrade, and three consecutive healthy ticks at layer 0 (cap 3)
propose an upgrade to layer 1. -/
theorem monitor_upgrade_hysteresis (feed : RemoteFeed) (h : VideoQualityHelper)
    (hTracks : feed.numVideoTracks ≠ 0) :
    (∀ (h' : VideoQualityHelper) (s : Nat),
        s < (h'.ping s).1 → h'.pingsNeeded ≤ h'.goodPings s + 1)
    ∧ ((monitorVideoQuality (some feed) h false).proposed
         = if feed.currentSubstream < (h.ping feed.currentSubstream).1
           then some (h.ping feed.currentSubstream).1 else none)
    ∧ (runMonitorTicks feed0 helper0 [true, true, false]).2 = [none, none, none]
    ∧ (runMonitorTicks feed0 helper0 [true, true, true]).2 = [none, none, some 1] := by
  refine ⟨fun h' s hlt => ?_, ?_, by decide, by decide⟩
  · by_cases hc : h'.pingsNeeded ≤ h'.goodPings s + 1 ∧ s + 1 < h'.maxStreams
    · exact hc.1
    · simp [VideoQualityHelper.ping, hc] at hlt
  · have hcond : ¬(feed.numVideoTracks = 0 ∨ false = true) := by simp [hTracks]
    simp only [monitorVideoQuality, hcond, if_false]
    split <;> simp_all

/-- Witness for C7: the healthy feed at layer 0 with the default helper
(cap 3, N = 3) gets the upgrade proposal to layer 1 exactly on the third
consecutive healthy tick. -/
theorem monitor_upgrade_hysteresis_witness :
    feed0.numVideoTracks ≠ 0
    ∧ (runMonitorTicks feed0 helper0 [true, true, true]).2 = [none, none, some 1] :=
  ⟨by decide, (monitor_upgrade_hysteresis feed0 helper0 (by decide)).2.2.2⟩

/-- Claim C8: `switchSubstream` emits the request event exactly when the
proposed id differs from `requestedSubstream` (the last requested value), and
any switch the monitor proposes is emitted under the same criterion. -/
theorem switchSubstream_dedup (feed : RemoteFeed) (substreamId : Nat) :
    (switchSubstream feed substreamId = some (feed, substreamId)
       ↔ feed.requestedSubstream ≠ substreamId)
    ∧ (switchSubstream feed substreamId = none ↔ feed.requestedSubstream = substreamId)
    ∧ (∀ (h : VideoQualityHelper) (slowLink : Bool),
        (monitorVideoQuality (some feed) h slowLink).proposed = some substreamId →
        ((monitorVideoQuality (some feed) h slowLink).emitted ≠ none
           ↔ feed.requestedSubstream ≠ substreamId)) := by
  refine ⟨?_, ?_, fun h slowLink hp => ?_⟩
  · unfold switchSubstream
    split <;> simp_all
  · unfold switchSubstream
    split <;> simp_all
  · simp only [monitorVideoQuality] at hp ⊢
    split at hp <;> split at hp <;> simp_all [switchSubstream]

/-- Witness for C8: for the feed whose last requested substream is 0, the
proposal of substream 1 is emitted. -/
theorem switchSubstream_dedup_witness :
    switchSubstream feed0 1 = some (feed0, 1) :=
  (switchSubstream_dedup feed0 1).1.mpr (by decide)

/-- Claim C9: a `setMute` command carrying the desired mute flag is issued in
a subscriber run exactly when the desired flag differs from `roomInfo.muted`
and `publishState = publishing`; in every other publish state no mute command
is issued. -/
theorem mute_reconciliation (tbl : Int → Option String) (s : CompState) (ri : RoomInfo)
    (feeds : List RemoteFeed) :
    Action.setMute s.muted ∈ (onStateEmission tbl s ri feeds).1
      ↔ (ri.muted ≠ s.muted ∧ ri.publishState = PublishState.publishing) := by
  unfold onStateEmission
  by_cases herr : ri.publishState = PublishState.error
  · rcases hmap : tbl ri.errorCode with _ | msg
    · simp [herr, hmap]
    · simp [herr, hmap, setMute_not_mem_stateSwitch]
  · simp [herr, setMute_not_mem_stateSwitch]

/-- Witness for C9: with the store reporting muted while publishing and the
desired flag unmuted, the run issues `setMute(false)`. -/
theorem mute_reconciliation_witness :
    Action.setMute cs0.muted ∈ (onStateEmission janusErrorsModel cs0 riPub []).1 :=
  (mute_reconciliation janusErrorsModel cs0 riPub []).mpr ⟨by decide, rfl⟩

/-- Claim C10: the emitted publisher list is the order-preserving subsequence
of the remote-feed list containing exactly the feeds with `state = ready`,
and every subscriber run (outside the throwing error path) emits it. -/
theorem publishers_ready_subsequence (remoteFeeds : List RemoteFeed) :
    List.Sublist (emitRemoteFeeds remoteFeeds) remoteFeeds
    ∧ (∀ f : RemoteFeed, f ∈ emitRemoteFeeds remoteFeeds ↔
        f ∈ remoteFeeds ∧ f.state = RemoteFeedState.ready)
    ∧ (∀ (tbl : Int → Option String) (s : CompState) (ri : RoomInfo),
        ri.publishState ≠ PublishState.error →
        Action.publishersEmit (emitRemoteFeeds remoteFeeds)
          ∈ (onStateEmission tbl s ri remoteFeeds).1) := by
  refine ⟨List.filter_sublist _, fun f => ?_, fun tbl s ri hpub => ?_⟩
  · simp [emitRemoteFeeds, List.mem_filter]
  · rw [onStateEmission_eq_of_ne_error tbl s ri remoteFeeds hpub]
    simp

/-- Witness for C10: a run on the singleton ready feed emits the publisher
list `[feed0]`. -/
theorem publishers_ready_subsequence_witness :
    Action.publishersEmit (emitRemoteFeeds [feed0])
      ∈ (onStateEmission janusErrorsModel cs0 riInit [feed0]).1 :=
  (publishers_ready_subsequence [feed0]).2.2 janusErrorsModel cs0 riInit (by decide)

end AngularJanus
